import Mathlib

/-!
Shallow embedding of the `jissue` repository (`src/jissue`): the Jira client
adapter (`jira_client.py`), the template store (`templates.py`) and the MCP
tool dispatcher (`server.py`).  Remote Jira calls are modelled by an oracle
record (`RemoteApi`) whose fields give the outcome of each underlying network
call; Python exceptions are modelled by `Except String` where the `String` is
the exception message (`str(e)`); Python `dict` payloads with optional keys
are modelled by records with `Option` fields (a missing key is `none`).
All strings in the source are ASCII, so Python's `str.lower`/`str.upper`/
`str.capitalize` are modelled by the ASCII case maps.
-/

/-- Python `str.lower()` on ASCII strings: lower-case every character. -/
def pyLower (s : String) : String := ⟨s.data.map Char.toLower⟩

/-- Python `str.upper()` on ASCII strings: upper-case every character. -/
def pyUpper (s : String) : String := ⟨s.data.map Char.toUpper⟩

/-- Python `str.capitalize()`: first character upper-cased, the rest
lower-cased (`"weirdType".capitalize() == "Weirdtype"`). -/
def pyCapitalize (s : String) : String :=
  match s.data with
  | [] => ""
  | c :: cs => ⟨Char.toUpper c :: cs.map Char.toLower⟩

/-- The ASCII whitespace characters removed by Python `str.strip()`. -/
def isPySpace (c : Char) : Bool :=
  c = ' ' || c = '\t' || c = '\n' || c = '\r' || c = '\x0b' || c = '\x0c'

/-- Python `str.strip()`: drop leading and trailing whitespace. -/
def pyStrip (s : String) : String :=
  ⟨((s.data.dropWhile isPySpace).reverse.dropWhile isPySpace).reverse⟩

/-- Python `sep.join(parts)`. -/
def pyJoin (sep : String) : List String → String
  | [] => ""
  | [a] => a
  | a :: b :: rest => a ++ sep ++ pyJoin sep (b :: rest)

/-- Is `c` an ASCII upper-case letter (`A`–`Z`)? -/
def isAsciiUpper (c : Char) : Bool :=
  decide (65 ≤ c.toNat) && decide (c.toNat ≤ 90)

/-- Does the string contain an ASCII upper-case letter? -/
def strHasUpper (s : String) : Bool := s.data.any isAsciiUpper

/-- Python truthiness of an optional string (`if x:` for `x : str | None`):
true exactly when the value is present and non-empty. -/
def optTruthy : Option String → Bool
  | none => false
  | some s => decide (s ≠ "")

/-- Python `f"{x}"` for `x : str | None`: `str(None)` prints as `"None"`. -/
def optText : Option String → String
  | none => "None"
  | some s => s

/-! ## Configuration and authentication (`jira_client.py`, `_connect`) -/

/-- The `~/.jissue/config.json` record.  Key presence in the Python `dict`
(`"token" in self.config`) is modelled by `Option.isSome`. -/
structure Config where
  jira_url : String
  default_project : Option String
  proxy : Option String
  token : Option String
  email : Option String
  api_token : Option String
  username : Option String
  password : Option String
deriving DecidableEq

/-- The authentication argument passed to the `JIRA(...)` constructor:
`token_auth=...` or `basic_auth=(user, pw)`. -/
inductive Auth where
  | tokenAuth (t : String)
  | basicAuth (user pw : String)
deriving DecidableEq

/-- The `ValueError` message raised by `_connect` when no credential shape
is present. -/
def invalidConfigMsg : String :=
  "Invalid config: must have either \x27token\x27 for token auth, " ++
  "(email, api_token) for Cloud, or (username, password) for Data Center"

/-- Authentication selection of `JiraClientWrapper._connect`
(`jira_client.py` lines 60-91): `token` key wins, else `email`+`api_token`,
else `username`+`password`, else a `ValueError` is raised before any
connection is attempted.  `Except.ok auth` means a `JIRA(...)` connection is
attempted with `auth`; `Except.error` means the `ValueError` path, which
never reaches the `JIRA(...)` constructor. -/
def connectAuth (cfg : Config) : Except String Auth :=
  match cfg.token with
  | some t => .ok (.tokenAuth t)
  | none =>
    match cfg.email, cfg.api_token with
    | some e, some a => .ok (.basicAuth e a)
    | _, _ =>
      match cfg.username, cfg.password with
      | some u, some p => .ok (.basicAuth u p)
      | _, _ => .error invalidConfigMsg

/-- The `token` credential shape is present. -/
def hasTokenShape (cfg : Config) : Bool := cfg.token.isSome

/-- The `email` + `api_token` credential shape is present. -/
def hasCloudShape (cfg : Config) : Bool := cfg.email.isSome && cfg.api_token.isSome

/-- The `username` + `password` credential shape is present. -/
def hasDcShape (cfg : Config) : Bool := cfg.username.isSome && cfg.password.isSome

/-- How many of the three credential shapes the configuration contains. -/
def countCredShapes (cfg : Config) : Nat :=
  (if hasTokenShape cfg then 1 else 0) +
  (if hasCloudShape cfg then 1 else 0) +
  (if hasDcShape cfg then 1 else 0)

/-! ## Issue creation (`jira_client.py`, `create_issue`) -/

/-- The `issue_type_map` dict literal in `create_issue`
(`jira_client.py` lines 110-117), as a lookup function. -/
def issueTypeMapGet (k : String) : Option String :=
  if k = "story" then some "Story"
  else if k = "bug" then some "Bug"
  else if k = "task" then some "Task"
  else if k = "spike" then some "Spike"
  else if k = "epic" then some "Epic"
  else if k = "subtask" then some "Sub-task"
  else none

/-- `issue_type_map.get(issue_type.lower(), issue_type.capitalize())`
(`jira_client.py` line 119). -/
def jiraIssueType (issue_type : String) : String :=
  (issueTypeMapGet (pyLower issue_type)).getD (pyCapitalize issue_type)

/-- The `issue_dict` payload handed to `self.jira.create_issue(fields=...)`.
The nested `\x7bkey: project\x7d` / `\x7bname: ...\x7d` wrappers are
flattened to the single string they carry; `priority`/`assignee` are `none`
exactly when the corresponding dict key is absent. -/
structure IssueFields where
  project : String
  summary : String
  description : String
  issuetype : String
  priority : Option String
  assignee : Option String
deriving DecidableEq

/-- The payload construction of `create_issue` (`jira_client.py` lines
121-132): `priority`/`assignee` keys are added only when the Python value is
truthy (`if priority:` — so `None` and `""` are both omitted). -/
def create_issue_fields (project issue_type summary description : String)
    (priority assignee : Option String) : IssueFields :=
  { project := project
    summary := summary
    description := description
    issuetype := jiraIssueType issue_type
    priority := if optTruthy priority then priority else none
    assignee := if optTruthy assignee then assignee else none }

/-! ## JQL construction (`jira_client.py`, `search_issues`) -/

/-- The guard `if query and query.strip():` (`jira_client.py` line 179). -/
def hasSearchText (query : String) : Bool :=
  decide (query ≠ "") && decide (pyStrip query ≠ "")

/-- The text clause `(summary ~ "q" OR description ~ "q")`
(`jira_client.py` line 180). -/
def textClause (query : String) : String :=
  "(summary ~ \"" ++ query ++ "\" OR description ~ \"" ++ query ++ "\")"

/-- The project clause `project = P` (`jira_client.py` line 184). -/
def projectClause (p : String) : String := "project = " ++ p

/-- The JQL query built by `search_issues` (`jira_client.py` lines 176-190):
collect the applicable clauses, join with `" AND "`, and append the
`ORDER BY updated DESC` suffix (alone when no clause applies). -/
def buildJql (query : String) (project : Option String) : String :=
  let jql_parts : List String :=
    (if hasSearchText query then [textClause query] else [])
      ++ (match project with
          | some p => if p ≠ "" then [projectClause p] else []
          | none => [])
  if jql_parts = [] then "ORDER BY updated DESC"
  else pyJoin " AND " jql_parts ++ " ORDER BY updated DESC"

/-! ## Remote API oracle and the client wrapper methods -/

/-- A remote object exposing a `.name` attribute (priority, issue type). -/
structure Named where
  name : String
deriving DecidableEq

/-- A remote project object (`p.key`, `p.name`). -/
structure ProjectRec where
  key : String
  name : String
deriving DecidableEq

/-- A remote issue object as consumed by the wrapper: `issue.key` and the
fields read from `issue.fields`.  `priority`/`assignee` are `none` when the
attribute is missing or `None` (the wrapper treats both alike via
`hasattr(...) and ...`); `description` is `none` when `None` (the wrapper
replaces it by `""` via `or ""`). -/
structure RemoteIssue where
  key : String
  summary : String
  issuetype : String
  status : String
  priority : Option String
  description : Option String
  assignee : Option String
deriving DecidableEq

/-- Oracle for the underlying `jira` library calls.  Each field gives the
outcome of the corresponding remote call: `Except.error e` models the call
raising an exception with message `e`. -/
structure RemoteApi where
  createIssue : IssueFields → Except String String
  projects : Except String (List ProjectRec)
  search : String → Int → Except String (List RemoteIssue)
  issue : String → Except String RemoteIssue
  project : String → Except String ProjectRec
  priorities : Except String (List Named)
  issueTypes : Except String (List Named)

/-- `JiraClientWrapper.get_issue_url` (`jira_client.py` lines 142-144):
pure string formatting, no remote call. -/
def get_issue_url (cfg : Config) (issue_key : String) : String :=
  cfg.jira_url ++ "/browse/" ++ issue_key

/-- `JiraClientWrapper.create_issue` (`jira_client.py` lines 99-140):
build the payload, call the remote, wrap any failure. -/
def create_issue (api : RemoteApi) (project issue_type summary description : String)
    (priority assignee : Option String) : Except String String :=
  match api.createIssue
      (create_issue_fields project issue_type summary description priority assignee) with
  | .ok key => .ok key
  | .error e => .error ("Failed to create Jira issue: " ++ e)

/-- `JiraClientWrapper.get_projects` (`jira_client.py` lines 146-156). -/
def get_projects (api : RemoteApi) : Except String (List ProjectRec) :=
  match api.projects with
  | .ok ps => .ok ps
  | .error e => .error ("Failed to get Jira projects: " ++ e)

/-- The plain-dict issue shape produced by the wrapper conversions. -/
structure IssueDict where
  key : String
  summary : String
  type : String
  status : String
  priority : Option String
  description : String
  assignee : Option String
  url : String
deriving DecidableEq

/-- The per-issue dict built in `search_issues` / `get_issue`
(`jira_client.py` lines 202-211 and 231-240). -/
def convertIssue (cfg : Config) (i : RemoteIssue) : IssueDict :=
  { key := i.key
    summary := i.summary
    type := i.issuetype
    status := i.status
    priority := i.priority
    description := i.description.getD ""
    assignee := i.assignee
    url := get_issue_url cfg i.key }

/-- `JiraClientWrapper.search_issues` (`jira_client.py` lines 158-217):
build the JQL, run the remote search, convert, and wrap any failure in
`"Failed to search Jira issues: ..."`. -/
def search_issues (api : RemoteApi) (cfg : Config) (query : String)
    (project : Option String) (max_results : Int) : Except String (List IssueDict) :=
  match api.search (buildJql query project) max_results with
  | .ok issues => .ok (issues.map (convertIssue cfg))
  | .error e => .error ("Failed to search Jira issues: " ++ e)

/-- `JiraClientWrapper.get_issue` (`jira_client.py` lines 219-244). -/
def get_issue (api : RemoteApi) (cfg : Config) (issue_key : String) :
    Except String IssueDict :=
  match api.issue issue_key with
  | .ok i => .ok (convertIssue cfg i)
  | .error e => .error ("Failed to get Jira issue " ++ issue_key ++ ": " ++ e)

/-- The result record of `get_project_metadata`. -/
structure MetadataRec where
  projectKey : String
  projectName : String
  priorities : List String
  issue_types : List String
deriving DecidableEq

/-- `JiraClientWrapper.get_project_metadata` (`jira_client.py` lines
246-278): fetch the project first (so a missing project fails the call),
then the global priority and issue-type lists; any failure is wrapped in
`"Failed to get project metadata: ..."`.  The `priorities()` and
`issue_types()` remote calls take no project argument. -/
def get_project_metadata (api : RemoteApi) (project_key : String) :
    Except String MetadataRec :=
  match api.project project_key with
  | .error e => .error ("Failed to get project metadata: " ++ e)
  | .ok proj =>
    match api.priorities with
    | .error e => .error ("Failed to get project metadata: " ++ e)
    | .ok ps =>
      match api.issueTypes with
      | .error e => .error ("Failed to get project metadata: " ++ e)
      | .ok its =>
        .ok { projectKey := proj.key
              projectName := proj.name
              priorities := ps.map Named.name
              issue_types := its.map Named.name }

/-! ## Template store (`templates.py`) -/

/-- A Python `dict` from string to string, modelled as an insertion-ordered
association list with pairwise distinct keys. -/
def StrDict : Type := List (String × String)

/-- The five built-in templates of `TemplateManager._get_default_templates`
(`templates.py` lines 34-117), in dict insertion order. -/
def defaultTemplates : StrDict :=
  [("story", "**As a** [user type]\n**I want** [goal]\n**So that** [benefit]\n\n## Acceptance Criteria\n- [ ] Criteria 1\n- [ ] Criteria 2\n- [ ] Criteria 3\n\n## Additional Notes\n[Any additional context or notes]\n"),
   ("bug", "## Description\n[Clear description of the bug]\n\n## Steps to Reproduce\n1. Step 1\n2. Step 2\n3. Step 3\n\n## Expected Behavior\n[What should happen]\n\n## Actual Behavior\n[What actually happens]\n\n## Environment\n- Browser/Device:\n- Version:\n- OS:\n\n## Additional Context\n[Screenshots, logs, or other relevant information]\n"),
   ("task", "## Objective\n[What needs to be done]\n\n## Details\n[Detailed description of the task]\n\n## Checklist\n- [ ] Item 1\n- [ ] Item 2\n- [ ] Item 3\n\n## Dependencies\n[Any dependencies or blockers]\n"),
   ("spike", "## Research Question\n[What do we need to investigate?]\n\n## Context\n[Why is this research needed?]\n\n## Goals\n- Goal 1\n- Goal 2\n\n## Expected Outcomes\n[What deliverables/findings are expected?]\n\n## Time Box\n[Time limit for this spike]\n"),
   ("epic", "## Vision\n[High-level description of what this epic aims to achieve]\n\n## Goals\n- Goal 1\n- Goal 2\n\n## User Stories\n[List of user stories that will be part of this epic]\n\n## Success Metrics\n[How will we measure success?]\n\n## Timeline\n[Expected timeline or milestones]\n")]

/-- The state of a `TemplateManager`: the built-in dict and the dict loaded
from the custom template directory (`templates.py` lines 13-32).  A custom
file `NAME.md` with content `c` contributes the entry `(NAME, c)`, the stem
kept with its on-disk case (`templates.py` lines 119-132). -/
structure TemplateManager where
  default_templates : StrDict
  custom_templates : StrDict

/-- `TemplateManager.get_template` (`templates.py` lines 134-152): lower-case
the requested type, check the custom dict first, then the defaults. -/
def get_template (tm : TemplateManager) (issue_type : String) : Option String :=
  let t := pyLower issue_type
  match tm.custom_templates.lookup t with
  | some v => some v
  | none => tm.default_templates.lookup t

/-- Python `base.copy()` followed by `.update(upd)` on dicts: keys of `base`
keep their position (with the updated value when `upd` has the key), keys
only in `upd` are appended in order. -/
def dictUpdate (base upd : StrDict) : StrDict :=
  (base.map fun kv =>
    match upd.lookup kv.1 with
    | some v => (kv.1, v)
    | none => kv)
  ++ upd.filter fun kv => (base.lookup kv.1).isNone

/-- `TemplateManager.get_all_templates` (`templates.py` lines 154-158). -/
def get_all_templates (tm : TemplateManager) : StrDict :=
  dictUpdate tm.default_templates tm.custom_templates

/-- `TemplateManager.list_templates` (`templates.py` lines 160-162). -/
def list_templates (tm : TemplateManager) : List String :=
  (get_all_templates tm).map Prod.fst

/-! ## MCP server dispatcher (`server.py`) -/

/-- One `TextContent(type="text", text=...)` block. -/
structure TextContentM where
  type : String
  text : String
deriving DecidableEq

/-- Shorthand for the only block shape the server builds. -/
def mkText (s : String) : TextContentM := { type := "text", text := s }

/-- The argument mapping of one tool call (`arguments: dict[str, Any]`),
modelled with one optional field per key the handlers read; a missing dict
key is `none`. -/
structure Args where
  query : Option String
  project : Option String
  max_results : Option Int
  issue_type : Option String
  issue_key : Option String
  project_key : Option String
  summary : Option String
  description : Option String
  priority : Option String
  assignee : Option String

/-- An argument mapping with no keys. -/
def emptyArgs : Args :=
  { query := none, project := none, max_results := none, issue_type := none
    issue_key := none, project_key := none, summary := none
    description := none, priority := none, assignee := none }

/-- The six registered tool names (`server.py` lines 156-163). -/
def toolNames : List String :=
  ["get_issue_templates", "create_jira_issue", "get_jira_projects",
   "search_jira_issues", "get_jira_issue", "get_project_metadata"]

/-- The all-templates listing built by `_get_issue_templates`
(`server.py` lines 186-189). -/
def allTemplatesText (tm : TemplateManager) : String :=
  (get_all_templates tm).foldl
    (fun acc kv => acc ++ "## " ++ pyUpper kv.1 ++ "\n\n" ++ kv.2 ++ "\n\n---\n\n")
    "# Available Issue Templates\n\n"

/-- `JissueServer._get_issue_templates` (`server.py` lines 175-191).
`args.get("issue_type")` followed by `if issue_type:` — Python truthiness,
so a missing or empty type lists every template. -/
def getIssueTemplatesH (tm : TemplateManager) (args : Args) :
    Except String (List TextContentM) :=
  match args.issue_type with
  | some it =>
    if it = "" then .ok [mkText (allTemplatesText tm)]
    else
      match get_template tm it with
      | some t => .ok [mkText ("# " ++ pyUpper it ++ " Template\n\n" ++ t)]
      | none =>
        .ok [mkText ("No template found for issue type: " ++ it ++
          "\n\nAvailable types: " ++ pyJoin ", " (list_templates tm))]
  | none => .ok [mkText (allTemplatesText tm)]

/-- Stand-in for the message of the pydantic `ValidationError` raised by
`IssueInput(**args)` when a required field is missing (`server.py` line
196); its exact wording is library-internal and not modelled further. -/
def validationErrorMsg : String := "validation error for IssueInput"

/-- `JissueServer._create_jira_issue` (`server.py` lines 193-215):
validate the four required fields, create the issue, format the result. -/
def createJiraIssueH (api : RemoteApi) (cfg : Config) (args : Args) :
    Except String (List TextContentM) :=
  match args.project, args.issue_type, args.summary, args.description with
  | some p, some it, some s, some d =>
    match create_issue api p it s d args.priority args.assignee with
    | .error e => .error e
    | .ok key =>
      .ok [mkText ("✓ Created Jira issue: " ++ key ++ "\n\nURL: " ++
        get_issue_url cfg key ++ "\n\nSummary: " ++ s)]
  | _, _, _, _ => .error validationErrorMsg

/-- `JissueServer._get_jira_projects` (`server.py` lines 217-228). -/
def getJiraProjectsH (api : RemoteApi) (_ : Args) :
    Except String (List TextContentM) :=
  match get_projects api with
  | .error e => .error e
  | .ok projects =>
    .ok [mkText (projects.foldl
      (fun acc p => acc ++ "- **" ++ p.key ++ "**: " ++ p.name ++ "\n")
      "# Available Jira Projects\n\n")]

/-- One issue block of the `_search_jira_issues` listing
(`server.py` lines 249-259): note `issue.get("priority", "N/A")` finds the
key (stored as `None`), so an absent priority prints as `None`; the
description is appended only when truthy, truncated to 200 characters. -/
def formatSearchIssue (issue : IssueDict) : String :=
  let base := "## " ++ issue.key ++ ": " ++ issue.summary ++ "\n" ++
    "**Type:** " ++ issue.type ++ " | **Status:** " ++ issue.status ++
    " | **Priority:** " ++ optText issue.priority ++ "\n" ++
    "**URL:** " ++ issue.url ++ "\n"
  let withDesc :=
    if issue.description ≠ "" then
      let desc := issue.description.take 200
      let desc := if issue.description.length > 200 then desc ++ "..." else desc
      base ++ "**Description:** " ++ desc ++ "\n"
    else base
  withDesc ++ "\n---\n\n"

/-- The response text of `_search_jira_issues` (`server.py` lines 245-259). -/
def formatSearchResults (query : String) (issues : List IssueDict) : String :=
  if issues = [] then "No issues found matching: " ++ query
  else issues.foldl (fun acc i => acc ++ formatSearchIssue i)
    ("# Found " ++ toString issues.length ++ " issue(s)\n\n")

/-- `JissueServer._search_jira_issues` (`server.py` lines 230-261):
`args["query"]` raises `KeyError` when absent (message `str(KeyError)` is
the quoted key); `max_results` defaults to 10. -/
def searchJiraIssuesH (api : RemoteApi) (cfg : Config) (args : Args) :
    Except String (List TextContentM) :=
  match args.query with
  | none => .error "\x27query\x27"
  | some q =>
    match search_issues api cfg q args.project (args.max_results.getD 10) with
    | .error e => .error e
    | .ok issues => .ok [mkText (formatSearchResults q issues)]

/-- The detail text of `_get_jira_issue` (`server.py` lines 271-277); as in
search, an absent priority or assignee prints as `None`. -/
def formatIssueDetail (issue : IssueDict) : String :=
  "# " ++ issue.key ++ ": " ++ issue.summary ++ "\n\n" ++
  "**Type:** " ++ issue.type ++ "\n" ++
  "**Status:** " ++ issue.status ++ "\n" ++
  "**Priority:** " ++ optText issue.priority ++ "\n" ++
  "**Assignee:** " ++ optText issue.assignee ++ "\n" ++
  "**URL:** " ++ issue.url ++ "\n\n" ++
  "## Description\n\n" ++ issue.description ++ "\n"

/-- `JissueServer._get_jira_issue` (`server.py` lines 263-279). -/
def getJiraIssueH (api : RemoteApi) (cfg : Config) (args : Args) :
    Except String (List TextContentM) :=
  match args.issue_key with
  | none => .error "\x27issue_key\x27"
  | some key =>
    match get_issue api cfg key with
    | .error e => .error e
    | .ok issue => .ok [mkText (formatIssueDetail issue)]

/-- `JissueServer._get_project_metadata` (`server.py` lines 281-299). -/
def getProjectMetadataH (api : RemoteApi) (args : Args) :
    Except String (List TextContentM) :=
  match args.project_key with
  | none => .error "\x27project_key\x27"
  | some pk =>
    match get_project_metadata api pk with
    | .error e => .error e
    | .ok md =>
      .ok [mkText ("# " ++ md.projectKey ++ " - " ++ md.projectName ++ "\n\n" ++
        "## Available Priorities\n" ++
        md.priorities.foldl (fun acc p => acc ++ "- " ++ p ++ "\n") "" ++
        "\n## Available Issue Types\n" ++
        md.issue_types.foldl (fun acc t => acc ++ "- " ++ t ++ "\n") "")]

/-- The `try` body of `JissueServer.call_tool` (`server.py` lines 165-170):
look the name up in the fixed handler table, raise
`ValueError("Unknown tool: ...")` when absent, else run the handler. -/
def call_toolE (api : RemoteApi) (cfg : Config) (tm : TemplateManager)
    (name : String) (args : Args) : Except String (List TextContentM) :=
  if name = "get_issue_templates" then getIssueTemplatesH tm args
  else if name = "create_jira_issue" then createJiraIssueH api cfg args
  else if name = "get_jira_projects" then getJiraProjectsH api args
  else if name = "search_jira_issues" then searchJiraIssuesH api cfg args
  else if name = "get_jira_issue" then getJiraIssueH api cfg args
  else if name = "get_project_metadata" then getProjectMetadataH api args
  else .error ("Unknown tool: " ++ name)

/-- `JissueServer.call_tool` (`server.py` lines 153-173): any exception from
dispatch or a handler is caught and turned into the single text block
`"Error: ..."` — the function always returns a response, never raises. -/
def call_tool (api : RemoteApi) (cfg : Config) (tm : TemplateManager)
    (name : String) (args : Args) : List TextContentM :=
  match call_toolE api cfg tm name args with
  | .ok r => r
  | .error e => [mkText ("Error: " ++ e)]

/-! ## Concrete instances used by witnesses and counterexamples -/

/-- A remote oracle whose every call fails (no network). -/
def apiDown : RemoteApi :=
  { createIssue := fun _ => .error "offline"
    projects := .error "offline"
    search := fun _ _ => .error "offline"
    issue := fun _ => .error "offline"
    project := fun _ => .error "offline"
    priorities := .error "offline"
    issueTypes := .error "offline" }

/-- A token-authenticated sample configuration. -/
def cfgToken : Config :=
  { jira_url := "https://jira.example.com", default_project := some "PROJ"
    proxy := none, token := some "tok", email := none, api_token := none
    username := none, password := none }

/-- A configuration with none of the three credential shapes. -/
def cfgNoCreds : Config :=
  { jira_url := "https://jira.example.com", default_project := some "PROJ"
    proxy := none, token := none, email := some "e@example.com"
    api_token := none, username := none, password := some "pw" }

/-- A configuration containing two complete credential shapes at once. -/
def cfgBothShapes : Config :=
  { jira_url := "https://jira.example.com", default_project := some "PROJ"
    proxy := none, token := some "tok", email := some "e@example.com"
    api_token := some "at", username := none, password := none }

/-- A configuration containing all three credential shapes. -/
def cfgAllShapes : Config :=
  { jira_url := "https://jira.example.com", default_project := some "PROJ"
    proxy := none, token := some "tok", email := some "e@example.com"
    api_token := some "at", username := some "u", password := some "pw" }

/-- A template manager with the built-in defaults and no custom files. -/
def tmDefault : TemplateManager :=
  { default_templates := defaultTemplates, custom_templates := [] }

/-- A template manager with the built-in defaults and one custom file
`k.md` holding content `v`. -/
def tmCustom (k v : String) : TemplateManager :=
  { default_templates := defaultTemplates, custom_templates := [(k, v)] }

/-- A remote oracle whose search call raises `boom`. -/
def apiBoom : RemoteApi := { apiDown with search := fun _ _ => .error "boom" }

/-- A remote oracle knowing one project and global priority/type lists. -/
def apiMeta : RemoteApi :=
  { apiDown with
    project := fun k =>
      if k = "PROJ" then .ok { key := "PROJ", name := "Project" }
      else .error "project missing"
    priorities := .ok [{ name := "High" }, { name := "Low" }]
    issueTypes := .ok [{ name := "Bug" }] }

/-- Arguments carrying only `query = "login"`. -/
def argsLogin : Args := { emptyArgs with query := some "login" }

/-! ## Helper lemmas -/

/-- `Char.ofNat` at a valid codepoint round-trips through `toNat`. -/
theorem toNat_charOfNat_valid (n : Nat) (h : n.isValidChar) :
    (Char.ofNat n).toNat = n := by
  rw [Char.ofNat, dif_pos h]; rfl

/-- ASCII lower-casing never yields an ASCII upper-case letter. -/
theorem isAsciiUpper_toLower (c : Char) : isAsciiUpper (Char.toLower c) = false := by
  unfold Char.toLower isAsciiUpper
  simp only []
  by_cases h : c.toNat ≥ 65 ∧ c.toNat ≤ 90
  · have hv : (c.toNat + 32).isValidChar := Or.inl (by omega)
    rw [if_pos h, toNat_charOfNat_valid _ hv]
    simp only [Bool.and_eq_false_iff, decide_eq_false_iff_not]
    omega
  · rw [if_neg h]
    simp only [Bool.and_eq_false_iff, decide_eq_false_iff_not]
    omega

/-- A lower-cased string never equals a string containing an ASCII
upper-case letter. -/
theorem pyLower_ne_of_upper (k : String) (hk : strHasUpper k = true)
    (s : String) : pyLower s ≠ k := by
  intro h
  rw [← h] at hk
  simp only [strHasUpper, pyLower, List.any_eq_true] at hk
  obtain ⟨c, hc, hup⟩ := hk
  simp only [List.mem_map] at hc
  obtain ⟨d, _, hd⟩ := hc
  rw [← hd, isAsciiUpper_toLower] at hup
  exact Bool.false_ne_true hup

/-! ## Claims -/

/-- C3: for every issue-type string whose lowercased form is a key of the
fixed table, `create_issue` sends the mapped remote name; for every other
string it sends the input capitalized. -/
theorem c3_issue_type_mapping (s : String) :
    (pyLower s = "story" → jiraIssueType s = "Story")
  ∧ (pyLower s = "bug" → jiraIssueType s = "Bug")
  ∧ (pyLower s = "task" → jiraIssueType s = "Task")
  ∧ (pyLower s = "spike" → jiraIssueType s = "Spike")
  ∧ (pyLower s = "epic" → jiraIssueType s = "Epic")
  ∧ (pyLower s = "subtask" → jiraIssueType s = "Sub-task")
  ∧ (pyLower s ≠ "story" → pyLower s ≠ "bug" → pyLower s ≠ "task" →
     pyLower s ≠ "spike" → pyLower s ≠ "epic" → pyLower s ≠ "subtask" →
     jiraIssueType s = pyCapitalize s) := by
  refine ⟨?_, ?_, ?_, ?_, ?_, ?_, ?_⟩ <;> intros <;>
    simp_all [jiraIssueType, issueTypeMapGet]

/-- Witness for C3: a mapped key (case-insensitively) and an unmapped type. -/
theorem c3_issue_type_mapping_witness :
    jiraIssueType "BUG" = "Bug" ∧ jiraIssueType "weirdType" = "Weirdtype" :=
  ⟨(c3_issue_type_mapping "BUG").2.1 (by decide),
   ((c3_issue_type_mapping "weirdType").2.2.2.2.2.2 (by decide) (by decide)
     (by decide) (by decide) (by decide) (by decide)).trans (by decide)⟩

/-- Counterexample for C4 as stated: a configuration holding two complete
credential shapes at once is not rejected — `_connect` picks token auth, so
"exactly one credential shape must be present" fails on the code. -/
theorem c4_counterexample :
    countCredShapes cfgBothShapes = 2 ∧
    connectAuth cfgBothShapes = .ok (.tokenAuth "tok") :=
  ⟨rfl, rfl⟩

/-- C4 (amended): at least one of the three credential shapes must be
present; connecting with a configuration containing none of them raises the
fatal `ValueError` setup message, and that is the only error `_connect`
itself raises — so no connection is attempted in that case. -/
theorem c4_credential_shapes (cfg : Config) :
    (connectAuth cfg = .error invalidConfigMsg ↔
      hasTokenShape cfg = false ∧ hasCloudShape cfg = false ∧
      hasDcShape cfg = false)
  ∧ (∀ e, connectAuth cfg = .error e → e = invalidConfigMsg) := by
  obtain ⟨url, dp, px, tok, em, at_, un, pw⟩ := cfg
  constructor
  · cases tok <;> cases em <;> cases at_ <;> cases un <;> cases pw <;>
      simp [connectAuth, hasTokenShape, hasCloudShape, hasDcShape]
  · intro e he
    cases tok <;> cases em <;> cases at_ <;> cases un <;> cases pw <;>
      simp_all [connectAuth]

/-- Witness for C4: a credential-free configuration is rejected with the
setup error. -/
theorem c4_credential_shapes_witness :
    connectAuth cfgNoCreds = .error invalidConfigMsg :=
  (c4_credential_shapes cfgNoCreds).1.mpr ⟨rfl, rfl, rfl⟩

/-- Counterexample for C7 as stated: a supplied-but-empty priority or
assignee is dropped from the payload, so "when supplied, the corresponding
field is present with the given name" fails at the empty string. -/
theorem c7_counterexample :
    (create_issue_fields "PROJ" "bug" "s" "d" (some "") (some "")).priority = none ∧
    (create_issue_fields "PROJ" "bug" "s" "d" (some "") (some "")).assignee = none ∧
    some "" ≠ (none : Option String) :=
  ⟨rfl, rfl, by decide⟩

/-- C7 (amended): the payload omits the priority field exactly when priority
is not supplied or empty, and carries the given name when supplied
non-empty; likewise for assignee. -/
theorem c7_optional_fields (project issue_type summary description : String)
    (priority assignee : Option String) :
    ((priority = none ∨ priority = some "") →
      (create_issue_fields project issue_type summary description priority
        assignee).priority = none)
  ∧ (∀ p, priority = some p → p ≠ "" →
      (create_issue_fields project issue_type summary description priority
        assignee).priority = some p)
  ∧ ((assignee = none ∨ assignee = some "") →
      (create_issue_fields project issue_type summary description priority
        assignee).assignee = none)
  ∧ (∀ a, assignee = some a → a ≠ "" →
      (create_issue_fields project issue_type summary description priority
        assignee).assignee = some a) := by
  refine ⟨?_, ?_, ?_, ?_⟩
  · rintro (rfl | rfl) <;> rfl
  · rintro p rfl hp; simp [create_issue_fields, optTruthy, hp]
  · rintro (rfl | rfl) <;> rfl
  · rintro a rfl ha; simp [create_issue_fields, optTruthy, ha]

/-- Witness for C7: unsupplied priority omitted, supplied assignee kept. -/
theorem c7_optional_fields_witness :
    (create_issue_fields "PROJ" "bug" "Sum" "Desc" none (some "alice")).priority
      = none ∧
    (create_issue_fields "PROJ" "bug" "Sum" "Desc" none (some "alice")).assignee
      = some "alice" :=
  ⟨(c7_optional_fields "PROJ" "bug" "Sum" "Desc" none (some "alice")).1
      (Or.inl rfl),
   (c7_optional_fields "PROJ" "bug" "Sum" "Desc" none (some "alice")).2.2.2
      "alice" rfl (by decide)⟩

/-- C10: token auth is chosen whenever the `token` key is present; otherwise
email+api_token whenever both keys are present; otherwise
username+password — extra credential shapes never change the selection, and
no combination of extra shapes makes `_connect` fail. -/
theorem c10_auth_priority (cfg : Config) :
    (∀ t, cfg.token = some t → connectAuth cfg = .ok (.tokenAuth t))
  ∧ (∀ e a, cfg.token = none → cfg.email = some e → cfg.api_token = some a →
      connectAuth cfg = .ok (.basicAuth e a))
  ∧ (∀ u p, cfg.token = none → hasCloudShape cfg = false →
      cfg.username = some u → cfg.password = some p →
      connectAuth cfg = .ok (.basicAuth u p)) := by
  refine ⟨?_, ?_, ?_⟩
  · intro t ht; simp [connectAuth, ht]
  · intro e a ht he ha; simp [connectAuth, ht, he, ha]
  · intro u p ht hcloud hu hp
    rcases hem : cfg.email with _ | e <;> rcases hat : cfg.api_token with _ | a <;>
      simp_all [connectAuth, hasCloudShape]

/-- Witness for C10: with all three shapes present, token auth is used. -/
theorem c10_auth_priority_witness :
    connectAuth cfgAllShapes = .ok (.tokenAuth "tok") :=
  (c10_auth_priority cfgAllShapes).1 "tok" rfl

/-- Counterexample for C1 as stated: the dispatcher wraps the unknown-tool
message in its uniform error channel, so the block text is
`"Error: Unknown tool: foo"`, not exactly `"Unknown tool: foo"`. -/
theorem c1_counterexample :
    call_tool apiDown cfgToken tmDefault "foo" emptyArgs =
      [mkText ("Error: Unknown tool: foo")] ∧
    mkText ("Error: Unknown tool: foo") ≠ mkText ("Unknown tool: foo") :=
  ⟨rfl, by decide⟩

/-- C1 (amended): for every name outside the six registered tools and every
argument mapping, `call_tool` returns a single text block that is exactly
`"Error: Unknown tool: \x7bname\x7d"` — and, being a total function into
responses, it propagates no exception to the caller. -/
theorem c1_unknown_tool (api : RemoteApi) (cfg : Config) (tm : TemplateManager)
    (name : String) (args : Args) (h : name ∉ toolNames) :
    call_tool api cfg tm name args = [mkText ("Error: Unknown tool: " ++ name)] := by
  simp only [toolNames, List.mem_cons, List.not_mem_nil, or_false, not_or] at h
  obtain ⟨h1, h2, h3, h4, h5, h6⟩ := h
  simp [call_tool, call_toolE, h1, h2, h3, h4, h5, h6]
  rfl

/-- Witness for C1 at a concrete unknown name. -/
theorem c1_unknown_tool_witness :
    call_tool apiDown cfgToken tmDefault "nonexistent_tool" emptyArgs =
      [mkText ("Error: Unknown tool: nonexistent_tool")] :=
  c1_unknown_tool apiDown cfgToken tmDefault "nonexistent_tool" emptyArgs
    (by decide)

/-- Counterexample for C2 as stated: a whitespace-only query is a non-empty
string, yet `search_issues` emits no text clause for it (the guard is
`query and query.strip()`); likewise an empty-string project is "given" but
produces no project clause (`if project:`). -/
theorem c2_counterexample :
    buildJql " " none = "ORDER BY updated DESC" ∧
    (" " : String) ≠ "" ∧
    buildJql " " none ≠
      "(summary ~ \" \" OR description ~ \" \") ORDER BY updated DESC" ∧
    buildJql "" (some "") = "ORDER BY updated DESC" :=
  ⟨by decide, by decide, by decide, by decide⟩

/-- C2 (amended): with "non-empty query" read as Python truthiness of
`query and query.strip()` (some non-whitespace character) and "project
given" read as a non-empty project string, the JQL falls into exactly four
cases — project-only, text-only, text AND project, unfiltered — and always
ends in `ORDER BY updated DESC`. -/
theorem c2_search_jql (query : String) (project : Option String) :
    (hasSearchText query = false → optTruthy project = false →
      buildJql query project = "ORDER BY updated DESC")
  ∧ (∀ p, hasSearchText query = false → project = some p → p ≠ "" →
      buildJql query project = "project = " ++ p ++ " ORDER BY updated DESC")
  ∧ (hasSearchText query = true → optTruthy project = false →
      buildJql query project =
        "(summary ~ \"" ++ query ++ "\" OR description ~ \"" ++ query ++
          "\") ORDER BY updated DESC")
  ∧ (∀ p, hasSearchText query = true → project = some p → p ≠ "" →
      buildJql query project =
        "(summary ~ \"" ++ query ++ "\" OR description ~ \"" ++ query ++
          "\") AND project = " ++ p ++ " ORDER BY updated DESC")
  ∧ (∃ s, buildJql query project = s ++ "ORDER BY updated DESC") := by
  refine ⟨?_, ?_, ?_, ?_, ?_⟩
  · intro hq hp
    rcases project with _ | p
    · simp [buildJql, hq]
    · simp only [optTruthy, decide_eq_false_iff_not, not_not] at hp
      subst hp
      simp [buildJql, hq]
  · rintro p hq rfl hp
    apply String.ext
    simp [buildJql, hq, hp, pyJoin, projectClause, String.data_append]
  · intro hq hp
    rcases project with _ | p
    · apply String.ext
      simp [buildJql, hq, pyJoin, textClause, String.data_append]
    · simp only [optTruthy, decide_eq_false_iff_not, not_not] at hp
      subst hp
      apply String.ext
      simp [buildJql, hq, pyJoin, textClause, String.data_append]
  · rintro p hq rfl hp
    apply String.ext
    simp [buildJql, hq, hp, pyJoin, textClause, projectClause, String.data_append]
  · simp only [buildJql]
    generalize (if hasSearchText query then [textClause query] else []) ++
      (match project with
       | some p => if p ≠ "" then [projectClause p] else []
       | none => []) = parts
    by_cases hpp : parts = []
    · rw [if_pos hpp]; exact ⟨"", rfl⟩
    · rw [if_neg hpp]
      refine ⟨pyJoin " AND " parts ++ " ", ?_⟩
      rw [String.append_assoc]
      congr 1

/-- Witness for C2: all four query-construction cases at concrete inputs. -/
theorem c2_search_jql_witness :
    buildJql "" (some "X") = "project = X ORDER BY updated DESC" ∧
    buildJql "login" none =
      "(summary ~ \"login\" OR description ~ \"login\") ORDER BY updated DESC" ∧
    buildJql "login" (some "X") =
      "(summary ~ \"login\" OR description ~ \"login\") AND project = X ORDER BY updated DESC" ∧
    buildJql "" none = "ORDER BY updated DESC" :=
  ⟨(c2_search_jql "" (some "X")).2.1 "X" (by decide) rfl (by decide),
   (c2_search_jql "login" none).2.2.1 (by decide) (by decide),
   (c2_search_jql "login" (some "X")).2.2.2.1 "X" (by decide) rfl (by decide),
   (c2_search_jql "" none).1 (by decide) (by decide)⟩

/-- C5: with a built-in default for `"bug"` and a custom `bug.md` of content
`v`, `get_template "bug"` returns the custom content (the override shadows
the default, no merging) and `list_templates` contains `"bug"` exactly
once. -/
theorem c5_template_override (v : String) :
    get_template (tmCustom "bug" v) "bug" = some v
  ∧ List.count "bug" (list_templates (tmCustom "bug" v)) = 1
  ∧ (List.lookup "bug" defaultTemplates).isSome = true :=
  ⟨rfl, rfl, rfl⟩

/-- C6: if the underlying remote search call raises with message `cause`
during the `search_jira_issues` tool, the dispatcher returns the single
text block `"Error: Failed to search Jira issues: \x7bcause\x7d"` instead
of propagating the exception. -/
theorem c6_search_error_response (api : RemoteApi) (cfg : Config)
    (tm : TemplateManager) (args : Args) (q cause : String)
    (hq : args.query = some q)
    (hs : api.search (buildJql q args.project) (args.max_results.getD 10) =
      .error cause) :
    call_tool api cfg tm "search_jira_issues" args =
      [mkText ("Error: Failed to search Jira issues: " ++ cause)] := by
  have hd : call_tool api cfg tm "search_jira_issues" args =
      (match searchJiraIssuesH api cfg args with
       | .ok r => r
       | .error e => [mkText ("Error: " ++ e)]) := rfl
  rw [hd]
  simp [searchJiraIssuesH, search_issues, hq, hs]
  rfl

/-- Witness for C6: a failing remote search at a concrete call. -/
theorem c6_search_error_response_witness :
    call_tool apiBoom cfgToken tmDefault "search_jira_issues" argsLogin =
      [mkText ("Error: Failed to search Jira issues: boom")] :=
  c6_search_error_response apiBoom cfgToken tmDefault argsLogin "login" "boom"
    rfl rfl

/-- C8: `get_project_metadata` fetches the project first — a missing project
fails the whole call — and on success returns the remote system's global
priority and issue-type lists, which do not depend on the requested project
key. -/
theorem c8_project_metadata (api : RemoteApi) (key : String) :
    (∀ e, api.project key = .error e →
      get_project_metadata api key =
        .error ("Failed to get project metadata: " ++ e))
  ∧ (∀ proj ps its, api.project key = .ok proj → api.priorities = .ok ps →
      api.issueTypes = .ok its →
      get_project_metadata api key =
        .ok { projectKey := proj.key, projectName := proj.name,
              priorities := ps.map Named.name,
              issue_types := its.map Named.name })
  ∧ (∀ k1 k2 p1 p2 ps its, api.project k1 = .ok p1 → api.project k2 = .ok p2 →
      api.priorities = .ok ps → api.issueTypes = .ok its →
      ∃ m1 m2, get_project_metadata api k1 = .ok m1 ∧
        get_project_metadata api k2 = .ok m2 ∧
        m1.priorities = m2.priorities ∧ m1.issue_types = m2.issue_types) := by
  refine ⟨?_, ?_, ?_⟩
  · intro e he
    simp [get_project_metadata, he]
  · intro proj ps its hp hps hits
    simp [get_project_metadata, hp, hps, hits]
  · intro k1 k2 p1 p2 ps its h1 h2 hps hits
    exact ⟨{ projectKey := p1.key, projectName := p1.name,
             priorities := ps.map Named.name, issue_types := its.map Named.name },
           { projectKey := p2.key, projectName := p2.name,
             priorities := ps.map Named.name, issue_types := its.map Named.name },
           by simp [get_project_metadata, h1, hps, hits],
           by simp [get_project_metadata, h2, hps, hits], rfl, rfl⟩

/-- Witness for C8: metadata of an existing and of a missing project. -/
theorem c8_project_metadata_witness :
    get_project_metadata apiMeta "PROJ" =
      .ok { projectKey := "PROJ", projectName := "Project",
            priorities := ["High", "Low"], issue_types := ["Bug"] } ∧
    get_project_metadata apiMeta "NOPE" =
      .error "Failed to get project metadata: project missing" :=
  ⟨(c8_project_metadata apiMeta "PROJ").2.1
      { key := "PROJ", name := "Project" } [{ name := "High" }, { name := "Low" }]
      [{ name := "Bug" }] rfl rfl rfl,
   (c8_project_metadata apiMeta "NOPE").1 "project missing" rfl⟩

/-- The key list of an updated dict: the base keys followed by the keys of
the update entries whose key is new. -/
theorem dictUpdate_map_fst (base upd : StrDict) :
    (dictUpdate base upd).map Prod.fst =
      base.map Prod.fst ++
        (upd.filter fun kv => (List.lookup kv.1 base).isNone).map Prod.fst := by
  unfold dictUpdate
  rw [List.map_append, List.map_map]
  congr 1
  apply List.map_congr_left
  intro kv _
  rcases hkv : List.lookup kv.1 upd with _ | w <;> simp [hkv]

/-- C9: a custom template whose filename stem contains an upper-case letter
is stored under that stem but can never be returned by `get_template`
(which lower-cases its lookup key), while the stem still appears as its own
entry in `list_templates` alongside a same-spelled lower-case default. -/
theorem c9_uppercase_template_stem (k v : String) (h : strHasUpper k = true) :
    (∀ s, get_template (tmCustom k v) s =
      List.lookup (pyLower s) defaultTemplates)
  ∧ k ∈ list_templates (tmCustom k v)
  ∧ (pyLower k ∈ defaultTemplates.map Prod.fst →
      pyLower k ∈ list_templates (tmCustom k v) ∧ k ≠ pyLower k) := by
  have hk : ∀ s, pyLower s ≠ k := pyLower_ne_of_upper k h
  have hbeq : ∀ key : String, strHasUpper key = false → (k == key) = false := by
    intro key hkey
    apply beq_eq_false_iff_ne.mpr
    rintro rfl
    simp [h] at hkey
  have hlk : List.lookup k defaultTemplates = none := by
    simp [defaultTemplates, List.lookup, hbeq "story" (by decide),
      hbeq "bug" (by decide), hbeq "task" (by decide),
      hbeq "spike" (by decide), hbeq "epic" (by decide)]
  refine ⟨?_, ?_, ?_⟩
  · intro s
    have he : ((pyLower s) == k) = false := beq_eq_false_iff_ne.mpr (hk s)
    simp [get_template, tmCustom, List.lookup, he]
  · simp only [list_templates, get_all_templates, tmCustom]
    rw [dictUpdate_map_fst]
    apply List.mem_append_right
    simp [hlk, List.filter]
  · intro hmem
    refine ⟨?_, Ne.symm (hk k)⟩
    simp only [list_templates, get_all_templates, tmCustom]
    rw [dictUpdate_map_fst]
    exact List.mem_append_left _ hmem

/-- Witness for C9: a custom `Bug.md` next to the built-in `bug` default. -/
theorem c9_uppercase_template_stem_witness :
    get_template (tmCustom "Bug" "custom") "Bug" =
      List.lookup "bug" defaultTemplates ∧
    "Bug" ∈ list_templates (tmCustom "Bug" "custom") ∧
    "bug" ∈ list_templates (tmCustom "Bug" "custom") ∧
    "Bug" ≠ "bug" :=
  ⟨(c9_uppercase_template_stem "Bug" "custom" (by decide)).1 "Bug",
   (c9_uppercase_template_stem "Bug" "custom" (by decide)).2.1,
   ((c9_uppercase_template_stem "Bug" "custom" (by decide)).2.2 (by decide)).1,
   ((c9_uppercase_template_stem "Bug" "custom" (by decide)).2.2 (by decide)).2⟩
